import Mathlib

/-!
Shallow embedding of `pyppeteer/input.py` (Keyboard, Mouse, Touchscreen).

Each asynchronous method of the source is modelled as a pure function from
the controller state to a result triple: an outcome (`Except PyError Unit`),
the state after the call (including mutations performed before an exception
was raised), and the ordered list of observable actions the call performed
(`Session.send` dispatches and `asyncio.sleep` suspensions).

Python floats are modelled as rationals, Python `round` as round-half-to-even
on rationals, Python ints as `Nat` with explicit bitwise operations, and the
`keyDefinitions` layout table as an abstract `String → Option KeyDefinition`.
-/

namespace PyppeteerInput

/-- Python's built-in `round` (round half to even) on a rational. -/
def pyRound (q : ℚ) : ℤ :=
  let f : ℤ := ⌊q⌋
  let r : ℚ := q - f
  if r < 1/2 then f
  else if 1/2 < r then f + 1
  else if f % 2 = 0 then f else f + 1

/-- Python `m & ~mask` on nonnegative ints: clear in `m` the bits of `mask`. -/
def andNot (m mask : Nat) : Nat := m ^^^ (m &&& mask)

/-- An entry of the key-layout table (`keyDefinitions[name]`): a Python dict
with optional fields.  `none` models an absent dict key. -/
structure KeyDefinition where
  key : Option String := none
  shiftKey : Option String := none
  keyCode : Option Nat := none
  shiftKeyCode : Option Nat := none
  code : Option String := none
  location : Option Nat := none
  text : Option String := none
  shiftText : Option String := none
deriving DecidableEq

/-- `not definition` for a present entry: the dict has no keys at all. -/
def KeyDefinition.isEmpty (d : KeyDefinition) : Bool :=
  d.key.isNone && d.shiftKey.isNone && d.keyCode.isNone && d.shiftKeyCode.isNone
    && d.code.isNone && d.location.isNone && d.text.isNone && d.shiftText.isNone

/-- The key-layout table: `keyDefinitions.get(keyString)`. -/
abbrev Layout := String → Option KeyDefinition

/-- Truthiness of an optional Python string (`definition.get(field)`). -/
def truthyS : Option String → Bool
  | some s => s != ""
  | none => false

/-- Truthiness of an optional Python int (`definition.get(field)`). -/
def truthyN : Option Nat → Bool
  | some n => n != 0
  | none => false

/-- The resolved description dict built by `Keyboard._keyDescriptionForString`. -/
structure KeyDescription where
  key : String
  keyCode : Nat
  code : String
  text : String
  location : Nat
deriving DecidableEq

/-- Exceptions raised by the module: `PyppeteerError(f'Unknown key: ...')`
from `_keyDescriptionForString`, and Python's `KeyError` raised by
`set.remove` in `Keyboard.up`. -/
inductive PyError where
  | unknownKey (key : String)
  | keyError (code : String)
deriving DecidableEq

/-- Payload of an `Input.dispatchKeyEvent` command; `none` models a dict key
that the particular call site does not include. -/
structure KeyEvent where
  type : String
  modifiers : Nat
  windowsVirtualKeyCode : Option Nat := none
  code : Option String := none
  key : Option String := none
  text : Option String := none
  unmodifiedText : Option String := none
  autoRepeat : Option Bool := none
  location : Option Nat := none
  isKeypad : Option Bool := none
deriving DecidableEq

/-- Payload of an `Input.dispatchMouseEvent` command. -/
structure MouseEvent where
  type : String
  button : String
  x : ℚ
  y : ℚ
  modifiers : Nat
  clickCount : Option Nat := none
deriving DecidableEq

/-- A touch point, already rounded by `Touchscreen.tap`. -/
structure TouchPoint where
  x : ℤ
  y : ℤ
deriving DecidableEq

/-- Payload of an `Input.dispatchTouchEvent` command. -/
structure TouchEvent where
  type : String
  touchPoints : List TouchPoint
  modifiers : Nat
deriving DecidableEq

/-- The parameters record passed to `Session.send`. -/
inductive Payload where
  | key (p : KeyEvent)
  | mouse (p : MouseEvent)
  | touch (p : TouchEvent)
deriving DecidableEq

/-- One observable action of a call: a `Session.send(method, params)` or an
`asyncio.sleep(seconds)` suspension. -/
inductive Call where
  | send (method : String) (params : Payload)
  | sleep (seconds : ℚ)
deriving DecidableEq

/-- The mutable state of a `Keyboard` object: `self._modifiers` and
`self._pressedKeys`. -/
structure KeyboardState where
  modifiers : Nat
  pressedKeys : Finset String
deriving DecidableEq

instance {ε α : Type} [DecidableEq ε] [DecidableEq α] :
    DecidableEq (Except ε α) := fun a b =>
  match a, b with
  | Except.error e, Except.error f =>
    if h : e = f then isTrue (by rw [h]) else isFalse (by simp [h])
  | Except.error _, Except.ok _ => isFalse (by simp)
  | Except.ok _, Except.error _ => isFalse (by simp)
  | Except.ok x, Except.ok y =>
    if h : x = y then isTrue (by rw [h]) else isFalse (by simp [h])

/-- Result of one keyboard method call: outcome, state after the call (kept
even when an exception is raised, since Python mutations persist), and the
trace of dispatches and sleeps performed. -/
structure KbResult where
  outcome : Except PyError Unit
  state : KeyboardState
  trace : List Call
deriving DecidableEq

/-- Options dict accepted by `Keyboard.down` / `press` / `type`. -/
structure Options where
  text : Option String := none
  delay : Option ℚ := none
deriving DecidableEq

namespace Keyboard

/-- `Keyboard._modifierBit`. -/
def modifierBit (key : String) : Nat :=
  if key = "Alt" then 1
  else if key = "Control" then 2
  else if key = "Meta" then 4
  else if key = "Shift" then 8
  else 0

/-- `Keyboard._keyDescriptionForString`: pure resolution of a symbolic key
name against the layout table under the current modifier bitmask. -/
def keyDescriptionForString (layout : Layout) (modifiers : Nat)
    (keyString : String) : Except PyError KeyDescription :=
  let shift := modifiers &&& 8
  match layout keyString with
  | none => Except.error (PyError.unknownKey keyString)
  | some definition =>
    if definition.isEmpty then Except.error (PyError.unknownKey keyString)
    else
      let key := definition.key.getD ""
      let key := if shift ≠ 0 ∧ truthyS definition.shiftKey then
          definition.shiftKey.getD "" else key
      let keyCode := definition.keyCode.getD 0
      let keyCode := if shift ≠ 0 ∧ truthyN definition.shiftKeyCode then
          definition.shiftKeyCode.getD 0 else keyCode
      let code := definition.code.getD ""
      let location := definition.location.getD 0
      let text := if key.length = 1 then key else ""
      let text := definition.text.getD text
      let text := if shift ≠ 0 ∧ truthyS definition.shiftText then
          definition.shiftText.getD "" else text
      let text := if andNot modifiers 8 ≠ 0 then "" else text
      Except.ok ⟨key, keyCode, code, text, location⟩

/-- `Keyboard.down(key, options)`. -/
def down (layout : Layout) (st : KeyboardState) (key : String)
    (options : Options) : KbResult :=
  match keyDescriptionForString layout st.modifiers key with
  | Except.error e => ⟨Except.error e, st, []⟩
  | Except.ok description =>
    let autoRepeat := decide (description.key ∈ st.pressedKeys)
    let pressedKeys := insert description.code st.pressedKeys
    let modifiers := st.modifiers ||| modifierBit description.key
    let text := options.text.getD description.text
    ⟨Except.ok (), ⟨modifiers, pressedKeys⟩,
      [Call.send "Input.dispatchKeyEvent" (Payload.key
        { type := if text ≠ "" then "keyDown" else "rawKeyDown"
          modifiers := modifiers
          windowsVirtualKeyCode := some description.keyCode
          code := some description.code
          key := some description.key
          text := some text
          unmodifiedText := some text
          autoRepeat := some autoRepeat
          location := some description.location
          isKeypad := some (description.location == 3) })]⟩

/-- `Keyboard.up(key)`.  Note the modifier bit is cleared before
`self._pressedKeys.remove(...)`, which raises `KeyError` when the code is
not a member; the cleared bitmask persists in that case. -/
def up (layout : Layout) (st : KeyboardState) (key : String) : KbResult :=
  match keyDescriptionForString layout st.modifiers key with
  | Except.error e => ⟨Except.error e, st, []⟩
  | Except.ok description =>
    let modifiers := andNot st.modifiers (modifierBit description.key)
    if description.code ∈ st.pressedKeys then
      ⟨Except.ok (), ⟨modifiers, st.pressedKeys.erase description.code⟩,
        [Call.send "Input.dispatchKeyEvent" (Payload.key
          { type := "keyUp"
            modifiers := modifiers
            key := some description.key
            windowsVirtualKeyCode := some description.keyCode
            code := some description.code
            location := some description.location })]⟩
    else
      ⟨Except.error (PyError.keyError description.code),
        ⟨modifiers, st.pressedKeys⟩, []⟩

/-- `Keyboard.sendCharacter(char)`: dispatches a single `char` event without
touching keyboard state. -/
def sendCharacter (st : KeyboardState) (char : String) : KbResult :=
  ⟨Except.ok (), st,
    [Call.send "Input.dispatchKeyEvent" (Payload.key
      { type := "char"
        modifiers := st.modifiers
        text := some char
        key := some char
        unmodifiedText := some char })]⟩

/-- `Keyboard.press(key, options)`: `down`, optional dwell sleep, `up`.
An exception from `down` aborts the rest. -/
def press (layout : Layout) (st : KeyboardState) (key : String)
    (options : Options) : KbResult :=
  let r1 := down layout st key options
  match r1.outcome with
  | Except.error _ => r1
  | Except.ok _ =>
    let dwell : List Call :=
      match options.delay with
      | some d => if d ≠ 0 then [Call.sleep (d / 1000)] else []
      | none => []
    let r2 := up layout r1.state key
    ⟨r2.outcome, r2.state, r1.trace ++ dwell ++ r2.trace⟩

/-- The per-character loop of `Keyboard.type`: for each character, `press`
(when the layout table has a `char` entry) or `sendCharacter`, then an
inter-key sleep when a nonzero delay is configured.  An exception aborts
the remaining characters. -/
def typeChars (layout : Layout) (st : KeyboardState) (chars : List Char)
    (delay : ℚ) : KbResult :=
  match chars with
  | [] => ⟨Except.ok (), st, []⟩
  | c :: rest =>
    let r :=
      if (layout "char").isSome then
        press layout st (String.singleton c) ⟨none, some delay⟩
      else
        sendCharacter st (String.singleton c)
    match r.outcome with
    | Except.error _ => r
    | Except.ok _ =>
      let pacing : List Call := if delay ≠ 0 then [Call.sleep (delay / 1000)] else []
      let rest2 := typeChars layout r.state rest delay
      ⟨rest2.outcome, rest2.state, r.trace ++ pacing ++ rest2.trace⟩

/-- `Keyboard.type(text, options)`. -/
def type (layout : Layout) (st : KeyboardState) (text : String)
    (options : Options) : KbResult :=
  let delay : ℚ := options.delay.getD 0
  typeChars layout st text.toList delay

end Keyboard

/-- The mutable state of a `Mouse` object: `self._x`, `self._y`,
`self._button`. -/
structure MouseState where
  x : ℚ
  y : ℚ
  button : String
deriving DecidableEq

namespace Mouse

/-- `Mouse.move(x, y, options)`: captures the origin, sets the new target
position, then dispatches one rounded interpolated `mouseMoved` event for
each `i` in `1..steps`, stamped with the keyboard's modifier bitmask. -/
def move (kbModifiers : Nat) (st : MouseState) (x y : ℚ) (steps : Nat) :
    MouseState × List Call :=
  let fromX := st.x
  let fromY := st.y
  (⟨x, y, st.button⟩,
    (List.range steps).map (fun (j : Nat) =>
      Call.send "Input.dispatchMouseEvent" (Payload.mouse
        { type := "mouseMoved"
          button := st.button
          x := ((pyRound (fromX + (x - fromX) * (((j : ℚ) + 1) / (steps : ℚ)))) : ℚ)
          y := ((pyRound (fromY + (y - fromY) * (((j : ℚ) + 1) / (steps : ℚ)))) : ℚ)
          modifiers := kbModifiers })))

end Mouse

namespace Touchscreen

/-- `Touchscreen.tap(x, y)`: a `touchStart` with the single rounded point,
then a `touchEnd` with no points, both stamped with the keyboard's modifier
bitmask; no controller state is mutated. -/
def tap (kbModifiers : Nat) (x y : ℚ) : List Call :=
  [Call.send "Input.dispatchTouchEvent" (Payload.touch
    { type := "touchStart"
      touchPoints := [⟨pyRound x, pyRound y⟩]
      modifiers := kbModifiers }),
   Call.send "Input.dispatchTouchEvent" (Payload.touch
    { type := "touchEnd"
      touchPoints := []
      modifiers := kbModifiers })]

end Touchscreen

/-- The `autoRepeat` field of each key event of a trace, in order. -/
def traceAutoRepeats (t : List Call) : List (Option Bool) :=
  t.filterMap (fun c =>
    match c with
    | Call.send _ (Payload.key ev) => some ev.autoRepeat
    | _ => none)

/-- Modelled from the spec: the repository's `us_keyboard_layout.keyDefinitions`
table is not part of the given source slice.  This fixture holds four entries
built from the spec's description of the table (§1 out-of-scope list, §6
layout-table contract, glossary): a letter key whose label differs from its
hardware code and has a shifted label variant, a key whose label equals its
hardware code and which carries an explicit text field, and the two physical
Shift keys, which share the label `Shift` but have distinct hardware codes
and keypad locations. -/
def sampleLayout : Layout := fun s =>
  if s = "a" then
    some { key := some "a", keyCode := some 65, shiftKey := some "A",
           code := some "KeyA" }
  else if s = "Enter" then
    some { key := some "Enter", keyCode := some 13, code := some "Enter",
           text := some "\r" }
  else if s = "ShiftLeft" then
    some { key := some "Shift", keyCode := some 16, code := some "ShiftLeft",
           location := some 1 }
  else if s = "ShiftRight" then
    some { key := some "Shift", keyCode := some 16, code := some "ShiftRight",
           location := some 2 }
  else none

/-! Helper lemmas about `andNot` (Python `m & ~mask`). -/

theorem testBit_andNot (m b i : Nat) :
    (andNot m b).testBit i = (m.testBit i && !(b.testBit i)) := by
  unfold andNot
  rw [Nat.testBit_xor, Nat.testBit_and]
  cases m.testBit i <;> cases b.testBit i <;> rfl

theorem andNot_or_self (m b : Nat) : andNot (m ||| b) b = andNot m b := by
  apply Nat.eq_of_testBit_eq
  intro i
  rw [testBit_andNot, testBit_andNot, Nat.testBit_or]
  cases m.testBit i <;> cases b.testBit i <;> rfl

theorem andNot_of_and_eq_zero (m b : Nat) (h : m &&& b = 0) : andNot m b = m := by
  unfold andNot
  rw [h, Nat.xor_zero]

theorem andNot_ne_self (m b : Nat) (h : m &&& b ≠ 0) : andNot m b ≠ m := by
  unfold andNot
  intro he
  apply h
  have h1 : m ^^^ (m ^^^ (m &&& b)) = m ^^^ m := by rw [he]
  rwa [← Nat.xor_assoc, Nat.xor_self, Nat.zero_xor] at h1

/-- C3: for a key name absent from the layout table, `down`, `up` and
`press` all fail with the unknown-key error, dispatch nothing, and leave
the keyboard state (modifier bitmask and pressed-key set) untouched. -/
theorem C3_theorem (layout : Layout) (st : KeyboardState) (k : String)
    (options : Options) (h : layout k = none) :
    Keyboard.down layout st k options
      = ⟨Except.error (PyError.unknownKey k), st, []⟩ ∧
    Keyboard.up layout st k
      = ⟨Except.error (PyError.unknownKey k), st, []⟩ ∧
    Keyboard.press layout st k options
      = ⟨Except.error (PyError.unknownKey k), st, []⟩ := by
  have hres : Keyboard.keyDescriptionForString layout st.modifiers k
      = Except.error (PyError.unknownKey k) := by
    unfold Keyboard.keyDescriptionForString
    rw [h]
  refine ⟨?_, ?_, ?_⟩
  · unfold Keyboard.down
    rw [hres]
  · unfold Keyboard.up
    rw [hres]
  · unfold Keyboard.press Keyboard.down
    rw [hres]

theorem C3_witness :
    sampleLayout "Frobnicate" = none ∧
    (Keyboard.down sampleLayout ⟨0, ∅⟩ "Frobnicate" {}
        = ⟨Except.error (PyError.unknownKey "Frobnicate"), ⟨0, ∅⟩, []⟩ ∧
      Keyboard.up sampleLayout ⟨0, ∅⟩ "Frobnicate"
        = ⟨Except.error (PyError.unknownKey "Frobnicate"), ⟨0, ∅⟩, []⟩ ∧
      Keyboard.press sampleLayout ⟨0, ∅⟩ "Frobnicate" {}
        = ⟨Except.error (PyError.unknownKey "Frobnicate"), ⟨0, ∅⟩, []⟩) :=
  ⟨by decide, C3_theorem sampleLayout ⟨0, ∅⟩ "Frobnicate" {} (by decide)⟩

/-- C4: `up` for a key name that resolves in the layout table but whose
hardware code is not in the pressed-key set fails with the `KeyError`
raised by `set.remove` (the source's invariant-violation failure) and
performs no dispatch. -/
theorem C4_theorem (layout : Layout) (st : KeyboardState) (k : String)
    (d : KeyDescription)
    (hd : Keyboard.keyDescriptionForString layout st.modifiers k = Except.ok d)
    (hn : d.code ∉ st.pressedKeys) :
    (Keyboard.up layout st k).outcome = Except.error (PyError.keyError d.code) ∧
    (Keyboard.up layout st k).trace = [] := by
  unfold Keyboard.up
  rw [hd]
  simp [hn]

theorem C4_witness :
    Keyboard.keyDescriptionForString sampleLayout (0 : Nat) "a"
      = Except.ok ⟨"a", 65, "KeyA", "a", 0⟩ ∧
    ("KeyA" ∉ (∅ : Finset String)) ∧
    ((Keyboard.up sampleLayout ⟨0, ∅⟩ "a").outcome
        = Except.error (PyError.keyError "KeyA") ∧
      (Keyboard.up sampleLayout ⟨0, ∅⟩ "a").trace = []) :=
  ⟨by decide, by decide,
    C4_theorem sampleLayout ⟨0, ∅⟩ "a" ⟨"a", 65, "KeyA", "a", 0⟩
      (by decide) (by decide)⟩

/-- C8: `down` for a resolvable key name dispatches exactly one key event;
its text is the options override when given, else the resolved text; its
type is `rawKeyDown` exactly when that text is empty and `keyDown`
otherwise; and it carries the updated modifier bitmask, virtual key code,
hardware code, label, the text as both `text` and `unmodifiedText`, the
autoRepeat flag, the location, and `isKeypad` true exactly when the
location is 3. -/
theorem C8_theorem (layout : Layout) (st : KeyboardState) (k : String)
    (options : Options) (d : KeyDescription)
    (hd : Keyboard.keyDescriptionForString layout st.modifiers k = Except.ok d) :
    Keyboard.down layout st k options =
      ⟨Except.ok (),
       ⟨st.modifiers ||| Keyboard.modifierBit d.key, insert d.code st.pressedKeys⟩,
       [Call.send "Input.dispatchKeyEvent" (Payload.key
         { type := if options.text.getD d.text ≠ "" then "keyDown" else "rawKeyDown"
           modifiers := st.modifiers ||| Keyboard.modifierBit d.key
           windowsVirtualKeyCode := some d.keyCode
           code := some d.code
           key := some d.key
           text := some (options.text.getD d.text)
           unmodifiedText := some (options.text.getD d.text)
           autoRepeat := some (decide (d.key ∈ st.pressedKeys))
           location := some d.location
           isKeypad := some (d.location == 3) })]⟩ := by
  unfold Keyboard.down
  rw [hd]

theorem C8_witness :
    Keyboard.keyDescriptionForString sampleLayout (0 : Nat) "a"
      = Except.ok ⟨"a", 65, "KeyA", "a", 0⟩ ∧
    Keyboard.down sampleLayout ⟨0, ∅⟩ "a" {} =
      ⟨Except.ok (), ⟨0, {"KeyA"}⟩,
       [Call.send "Input.dispatchKeyEvent" (Payload.key
         { type := "keyDown", modifiers := 0, windowsVirtualKeyCode := some 65,
           code := some "KeyA", key := some "a", text := some "a",
           unmodifiedText := some "a", autoRepeat := some false,
           location := some 0, isKeypad := some false })]⟩ := by
  refine ⟨by decide, ?_⟩
  rw [C8_theorem sampleLayout ⟨0, ∅⟩ "a" {} ⟨"a", 65, "KeyA", "a", 0⟩ (by decide)]
  decide

/-- C9: `tap` dispatches exactly two touch events in order — a `touchStart`
with the single rounded point and the current modifier bitmask, then a
`touchEnd` with an empty point list and the same bitmask — and, being a
function of only the coordinates and the keyboard's bitmask, neither reads
nor mutates any other state. -/
theorem C9_theorem (kbModifiers : Nat) (x y : ℚ) :
    Touchscreen.tap kbModifiers x y =
      [Call.send "Input.dispatchTouchEvent" (Payload.touch
        { type := "touchStart"
          touchPoints := [⟨pyRound x, pyRound y⟩]
          modifiers := kbModifiers }),
       Call.send "Input.dispatchTouchEvent" (Payload.touch
        { type := "touchEnd"
          touchPoints := []
          modifiers := kbModifiers })] := rfl

/-- C10: `up` for a modifier key whose hardware code is not in the
pressed-key set clears the key's modifier bit before the failure: the call
fails with no dispatch, the pressed-key set is unchanged, the bitmask
becomes the old bitmask with the bit cleared, and — when that bit was set —
the bitmask is therefore not left unchanged. -/
theorem C10_theorem (layout : Layout) (st : KeyboardState) (k : String)
    (d : KeyDescription)
    (hd : Keyboard.keyDescriptionForString layout st.modifiers k = Except.ok d)
    (hn : d.code ∉ st.pressedKeys)
    (hbit : st.modifiers &&& Keyboard.modifierBit d.key ≠ 0) :
    Keyboard.up layout st k =
      ⟨Except.error (PyError.keyError d.code),
       ⟨andNot st.modifiers (Keyboard.modifierBit d.key), st.pressedKeys⟩, []⟩ ∧
    (Keyboard.up layout st k).state.modifiers ≠ st.modifiers := by
  have hmain : Keyboard.up layout st k =
      ⟨Except.error (PyError.keyError d.code),
       ⟨andNot st.modifiers (Keyboard.modifierBit d.key), st.pressedKeys⟩, []⟩ := by
    unfold Keyboard.up
    rw [hd]
    simp [hn]
  refine ⟨hmain, ?_⟩
  rw [hmain]
  exact andNot_ne_self st.modifiers (Keyboard.modifierBit d.key) hbit

theorem C10_witness :
    Keyboard.keyDescriptionForString sampleLayout (8 : Nat) "ShiftLeft"
      = Except.ok ⟨"Shift", 16, "ShiftLeft", "", 1⟩ ∧
    ("ShiftLeft" ∉ (∅ : Finset String)) ∧
    ((8 : Nat) &&& Keyboard.modifierBit "Shift" ≠ 0) ∧
    (Keyboard.up sampleLayout ⟨8, ∅⟩ "ShiftLeft" =
        ⟨Except.error (PyError.keyError "ShiftLeft"), ⟨0, ∅⟩, []⟩ ∧
      (Keyboard.up sampleLayout ⟨8, ∅⟩ "ShiftLeft").state.modifiers ≠ 8) := by
  refine ⟨by decide, by decide, by decide, ?_⟩
  have h := C10_theorem sampleLayout ⟨8, ∅⟩ "ShiftLeft"
    ⟨"Shift", 16, "ShiftLeft", "", 1⟩ (by decide) (by decide) (by decide)
  refine ⟨?_, h.2⟩
  rw [h.1]
  decide

/-- C1 (amended): `down` for a resolvable key name dispatches exactly one
key event whose `autoRepeat` flag is true exactly when the resolved label
is a member of the set of currently pressed hardware codes; in particular
the flag is false whenever no key is pressed.  (The source tests the label
against the code set directly, so a repeated `down` reports
`autoRepeat=true` only for keys whose label coincides with a pressed
hardware code, e.g. `Enter`.) -/
theorem C1_theorem (layout : Layout) (st : KeyboardState) (k : String)
    (options : Options) (d : KeyDescription)
    (hd : Keyboard.keyDescriptionForString layout st.modifiers k = Except.ok d) :
    traceAutoRepeats (Keyboard.down layout st k options).trace
      = [some (decide (d.key ∈ st.pressedKeys))] ∧
    (st.pressedKeys = ∅ →
      traceAutoRepeats (Keyboard.down layout st k options).trace = [some false]) := by
  have hmain : traceAutoRepeats (Keyboard.down layout st k options).trace
      = [some (decide (d.key ∈ st.pressedKeys))] := by
    unfold Keyboard.down
    rw [hd]
    rfl
  refine ⟨hmain, fun h => ?_⟩
  rw [hmain, h]
  simp

theorem C1_witness :
    Keyboard.keyDescriptionForString sampleLayout (0 : Nat) "Enter"
      = Except.ok ⟨"Enter", 13, "Enter", "\r", 0⟩ ∧
    traceAutoRepeats
        (Keyboard.down sampleLayout ⟨0, {"Enter"}⟩ "Enter" {}).trace
      = [some true] := by
  refine ⟨by decide, ?_⟩
  have h := (C1_theorem sampleLayout ⟨0, {"Enter"}⟩ "Enter" {}
    ⟨"Enter", 13, "Enter", "\r", 0⟩ (by decide)).1
  rw [h]
  decide

/-- C1 counterexample: the pressed-key set stores hardware codes, and the
second `down` tests the resolved label against those codes.  For
`ShiftLeft` (label `Shift`, code `ShiftLeft`) the first `down` leaves the
code in the pressed set, yet a second `down` of the very same key — which
resolves to the same label — still dispatches `autoRepeat=false`, refuting
the claim that it dispatches `autoRepeat=true`. -/
theorem C1_counterexample :
    (Keyboard.down sampleLayout ⟨0, ∅⟩ "ShiftLeft" {}).state.pressedKeys
      = {"ShiftLeft"} ∧
    traceAutoRepeats (Keyboard.down sampleLayout ⟨0, ∅⟩ "ShiftLeft" {}).trace
      = [some false] ∧
    traceAutoRepeats
        (Keyboard.down sampleLayout
          (Keyboard.down sampleLayout ⟨0, ∅⟩ "ShiftLeft" {}).state
          "ShiftLeft" {}).trace
      = [some false] := by decide

/-- C2 (amended): key-name resolution is a pure function of the key name,
the Shift bit, and the one further fact of whether any non-Shift modifier
bit is active (the source forces the text payload to empty in that case);
two resolutions agreeing on those two bits of state are identical, and
resolution dispatches nothing and mutates nothing. -/
theorem C2_theorem (layout : Layout) (k : String) (m1 m2 : Nat)
    (hshift : m1 &&& 8 = m2 &&& 8)
    (hother : andNot m1 8 = 0 ↔ andNot m2 8 = 0) :
    Keyboard.keyDescriptionForString layout m1 k
      = Keyboard.keyDescriptionForString layout m2 k := by
  unfold Keyboard.keyDescriptionForString
  rw [hshift]
  by_cases h1 : andNot m1 8 = 0
  · have h2 : andNot m2 8 = 0 := hother.mp h1
    simp [h1, h2]
  · have h2 : ¬ andNot m2 8 = 0 := fun hc => h1 (hother.mpr hc)
    simp [h1, h2]

theorem C2_witness :
    ((1 : Nat) &&& 8 = (2 : Nat) &&& 8) ∧
    (andNot 1 8 = 0 ↔ andNot 2 8 = 0) ∧
    Keyboard.keyDescriptionForString sampleLayout 1 "a"
      = Keyboard.keyDescriptionForString sampleLayout 2 "a" :=
  ⟨by decide, by decide,
    C2_theorem sampleLayout "a" 1 2 (by decide) (by decide)⟩

/-- C2 counterexample: with the Shift bit equal (clear) in both states,
resolving `a` under no modifiers yields text `a`, but resolving it while
only Alt (bit 1) is active yields empty text — the resolved description
depends on the Alt/Control/Meta bits, refuting purity in (key name, Shift
bit) alone. -/
theorem C2_counterexample :
    ((0 : Nat) &&& 8 = (1 : Nat) &&& 8) ∧
    Keyboard.keyDescriptionForString sampleLayout 0 "a"
      = Except.ok ⟨"a", 65, "KeyA", "a", 0⟩ ∧
    Keyboard.keyDescriptionForString sampleLayout 1 "a"
      = Except.ok ⟨"a", 65, "KeyA", "", 0⟩ ∧
    Keyboard.keyDescriptionForString sampleLayout 0 "a"
      ≠ Keyboard.keyDescriptionForString sampleLayout 1 "a" := by decide

/-- C6 (amended): `down(k)` followed by `up(k)` sets the modifier bitmask
to its pre-`down` value with the bit of `k`'s label cleared — all other
bits are unchanged, and the result equals the pre-`down` value exactly
when that bit was already clear before the `down`. -/
theorem C6_theorem (layout : Layout) (st : KeyboardState) (k : String)
    (options : Options) (d d2 : KeyDescription)
    (hd : Keyboard.keyDescriptionForString layout st.modifiers k = Except.ok d)
    (hd2 : Keyboard.keyDescriptionForString layout
        (Keyboard.down layout st k options).state.modifiers k = Except.ok d2)
    (hkey : d2.key = d.key) (hcode : d2.code = d.code) :
    (Keyboard.up layout (Keyboard.down layout st k options).state k).state.modifiers
      = andNot st.modifiers (Keyboard.modifierBit d.key) ∧
    (st.modifiers &&& Keyboard.modifierBit d.key = 0 →
      (Keyboard.up layout (Keyboard.down layout st k options).state k).state.modifiers
        = st.modifiers) := by
  have hdown : (Keyboard.down layout st k options).state =
      ⟨st.modifiers ||| Keyboard.modifierBit d.key, insert d.code st.pressedKeys⟩ := by
    unfold Keyboard.down
    rw [hd]
  have hmain : (Keyboard.up layout (Keyboard.down layout st k options).state k).state.modifiers
      = andNot st.modifiers (Keyboard.modifierBit d.key) := by
    rw [hdown] at hd2
    rw [hdown]
    unfold Keyboard.up
    rw [hd2]
    simp [hkey, hcode, Finset.mem_insert_self, andNot_or_self]
  refine ⟨hmain, fun h => ?_⟩
  rw [hmain, andNot_of_and_eq_zero st.modifiers (Keyboard.modifierBit d.key) h]

theorem C6_witness :
    Keyboard.keyDescriptionForString sampleLayout (0 : Nat) "ShiftLeft"
      = Except.ok ⟨"Shift", 16, "ShiftLeft", "", 1⟩ ∧
    Keyboard.keyDescriptionForString sampleLayout
        (Keyboard.down sampleLayout ⟨0, ∅⟩ "ShiftLeft" {}).state.modifiers "ShiftLeft"
      = Except.ok ⟨"Shift", 16, "ShiftLeft", "", 1⟩ ∧
    ((0 : Nat) &&& Keyboard.modifierBit "Shift" = 0) ∧
    (Keyboard.up sampleLayout
        (Keyboard.down sampleLayout ⟨0, ∅⟩ "ShiftLeft" {}).state
        "ShiftLeft").state.modifiers = 0 := by
  refine ⟨by decide, by decide, by decide, ?_⟩
  have h := C6_theorem sampleLayout ⟨0, ∅⟩ "ShiftLeft" {}
    ⟨"Shift", 16, "ShiftLeft", "", 1⟩ ⟨"Shift", 16, "ShiftLeft", "", 1⟩
    (by decide) (by decide) rfl rfl
  rw [h.1]
  decide

/-- C6 counterexample: with `ShiftLeft` held, the bitmask before
`down('ShiftRight')` is 8; after `down('ShiftRight')` then
`up('ShiftRight')` the bitmask is 0, not the pre-`down` value 8 — a
down/up pair of a modifier key does not in general restore the modifier
state, because `up` clears the whole bit even though another key with the
same label is still held. -/
theorem C6_counterexample :
    (Keyboard.down sampleLayout ⟨0, ∅⟩ "ShiftLeft" {}).state.modifiers = 8 ∧
    (Keyboard.up sampleLayout
        (Keyboard.down sampleLayout
          (Keyboard.down sampleLayout ⟨0, ∅⟩ "ShiftLeft" {}).state
          "ShiftRight" {}).state
        "ShiftRight").state.modifiers = 0 ∧
    (0 : Nat) ≠ 8 := by decide

/-- The per-character behaviour of `type` when the layout table lacks a
`char` entry and a nonzero delay is configured: each character yields one
`sendCharacter` dispatch followed by one pacing sleep, with no state
change. -/
theorem typeChars_no_char_entry (layout : Layout) (hchar : layout "char" = none)
    (delay : ℚ) (hdelay : delay ≠ 0) (chars : List Char) (st : KeyboardState) :
    Keyboard.typeChars layout st chars delay =
      ⟨Except.ok (), st,
       (chars.map (fun c =>
         [Call.send "Input.dispatchKeyEvent" (Payload.key
            { type := "char"
              modifiers := st.modifiers
              text := some (String.singleton c)
              key := some (String.singleton c)
              unmodifiedText := some (String.singleton c) }),
          Call.sleep (delay / 1000)])).flatten⟩ := by
  induction chars generalizing st with
  | nil => rfl
  | cons c rest ih =>
    simp only [Keyboard.typeChars, hchar, Option.isSome_none, Bool.false_eq_true,
      if_false, Keyboard.sendCharacter, hdelay, ne_eq, not_false_eq_true, if_true,
      ih, List.map_cons, List.flatten_cons]
    rfl

/-- C7: with no generic-character entry in the layout table and a positive
delay `d`, `type` performs, for each character of the text in order,
exactly one `char` dispatch for that character followed by one pacing
sleep of `d/1000` seconds, performs no `down`/`up` dispatches, and leaves
the keyboard state unchanged. -/
theorem C7_theorem (layout : Layout) (st : KeyboardState) (text : String)
    (d : ℚ) (hchar : layout "char" = none) (hd : 0 < d) :
    Keyboard.type layout st text ⟨none, some d⟩ =
      ⟨Except.ok (), st,
       (text.toList.map (fun c =>
         [Call.send "Input.dispatchKeyEvent" (Payload.key
            { type := "char"
              modifiers := st.modifiers
              text := some (String.singleton c)
              key := some (String.singleton c)
              unmodifiedText := some (String.singleton c) }),
          Call.sleep (d / 1000)])).flatten⟩ := by
  have hne : d ≠ 0 := ne_of_gt hd
  unfold Keyboard.type
  exact typeChars_no_char_entry layout hchar d hne text.toList st

theorem C7_witness :
    sampleLayout "char" = none ∧
    ((0 : ℚ) < 10) ∧
    Keyboard.type sampleLayout ⟨0, ∅⟩ "Hi" ⟨none, some 10⟩ =
      ⟨Except.ok (), ⟨0, ∅⟩,
       [Call.send "Input.dispatchKeyEvent" (Payload.key
          { type := "char", modifiers := 0, text := some "H",
            key := some "H", unmodifiedText := some "H" }),
        Call.sleep (10 / 1000),
        Call.send "Input.dispatchKeyEvent" (Payload.key
          { type := "char", modifiers := 0, text := some "i",
            key := some "i", unmodifiedText := some "i" }),
        Call.sleep (10 / 1000)]⟩ := by
  refine ⟨by decide, by decide, ?_⟩
  rw [C7_theorem sampleLayout ⟨0, ∅⟩ "Hi" 10 (by decide) (by decide)]
  rfl

/-- C5: for `steps = n ≥ 1`, `move(x, y)` dispatches exactly `n`
`mouseMoved` events in order; the event at index `i` (0-based; step
`i + 1` of the source loop) carries the rounded linear interpolation
`round(origin + (target - origin) * ((i+1)/n))` componentwise together
with the current button and the keyboard's modifier bitmask; the final
event carries exactly `(round x, round y)`; and the stored cursor
position is the target. -/
theorem C5_theorem (kbModifiers : Nat) (st : MouseState) (x y : ℚ)
    (steps i : Nat) (hsteps : 1 ≤ steps) (hi : i < steps) :
    (Mouse.move kbModifiers st x y steps).2.length = steps ∧
    (Mouse.move kbModifiers st x y steps).2[i]? =
      some (Call.send "Input.dispatchMouseEvent" (Payload.mouse
        { type := "mouseMoved"
          button := st.button
          x := ((pyRound (st.x + (x - st.x) * (((i : ℚ) + 1) / (steps : ℚ)))) : ℚ)
          y := ((pyRound (st.y + (y - st.y) * (((i : ℚ) + 1) / (steps : ℚ)))) : ℚ)
          modifiers := kbModifiers })) ∧
    (Mouse.move kbModifiers st x y steps).2[steps - 1]? =
      some (Call.send "Input.dispatchMouseEvent" (Payload.mouse
        { type := "mouseMoved"
          button := st.button
          x := ((pyRound x : ℤ) : ℚ)
          y := ((pyRound y : ℤ) : ℚ)
          modifiers := kbModifiers })) ∧
    (Mouse.move kbModifiers st x y steps).1 = ⟨x, y, st.button⟩ := by
  have hlast : steps - 1 < steps := Nat.sub_lt (by omega) (by omega)
  have hs0 : (steps : ℚ) ≠ 0 := Nat.cast_ne_zero.mpr (by omega)
  have hcast : (((steps - 1 : Nat) : ℚ) + 1) = (steps : ℚ) := by
    rw [Nat.cast_sub hsteps]
    push_cast
    ring
  have hx : st.x + (x - st.x) * ((((steps - 1 : Nat) : ℚ) + 1) / (steps : ℚ)) = x := by
    rw [hcast, div_self hs0]
    ring
  have hy : st.y + (y - st.y) * ((((steps - 1 : Nat) : ℚ) + 1) / (steps : ℚ)) = y := by
    rw [hcast, div_self hs0]
    ring
  refine ⟨?_, ?_, ?_, rfl⟩
  · simp [Mouse.move]
  · simp [Mouse.move, List.getElem?_map, List.getElem?_range hi]
  · simp only [Mouse.move, List.getElem?_map, List.getElem?_range hlast,
      Option.map_some']
    rw [hx, hy]

theorem C5_witness :
    (1 ≤ 5 ∧ 0 < 5) ∧
    (Mouse.move 0 ⟨0, 0, "none"⟩ 100 200 5).2.length = 5 ∧
    (Mouse.move 0 ⟨0, 0, "none"⟩ 100 200 5).2[0]? =
      some (Call.send "Input.dispatchMouseEvent" (Payload.mouse
        { type := "mouseMoved", button := "none", x := 20, y := 40,
          modifiers := 0 })) ∧
    (Mouse.move 0 ⟨0, 0, "none"⟩ 100 200 5).2[4]? =
      some (Call.send "Input.dispatchMouseEvent" (Payload.mouse
        { type := "mouseMoved", button := "none", x := 100, y := 200,
          modifiers := 0 })) ∧
    (Mouse.move 0 ⟨0, 0, "none"⟩ 100 200 5).1 = ⟨100, 200, "none"⟩ := by
  have h := C5_theorem 0 ⟨0, 0, "none"⟩ 100 200 5 0 (by decide) (by decide)
  refine ⟨⟨by decide, by decide⟩, h.1, ?_, ?_, h.2.2.2⟩
  · rw [h.2.1]
    norm_num [pyRound]
  · rw [h.2.2.1]
    norm_num [pyRound]

end PyppeteerInput
